import Mathlib

/-!
Verification of the workflow execution engine with AI-assisted self-healing
(`src/app/lib/self-healing.ts`: the failure classifier `isErrorHealable`, the
Fix Proposer adapter `attemptSelfHealing`, and the executor functions
`executeStep`, `executeStepWithHealing`, `executeWorkflow` together with their
persistence helpers `createStepExecution`, `updateStepExecution`,
`updateExecutionLog`, `logEvent`).

Modelling conventions:
- Errors travel as their message strings (in the source, `extractErrorDetails`
  reduces an error to `{ message, details? }`; only the message is consulted by
  the classifier and recorded as `error_message`).
- The nondeterminism of the Action Invoker (`simulateToolExecution` draws
  `Math.random()` and each tool returns a mock payload) is modelled by an
  outcome oracle `actionResults : Nat -> Except String Output` consumed one
  entry per invocation; `actionCalls` counts the invocations made.
- The Fix Proposer's network call (OpenAI chat completion) is modelled by an
  oracle `proposerResults : Nat -> Option RawProposerResult`: `none` stands
  for a failed call / empty content / unparseable JSON, `some raw` for the
  decoded JSON object, whose fields may each be absent (`undefined`).
- The database (Supabase tables `step_executions`, `x_execution_logs`,
  `execution_events`) is modelled as in-memory lists and a record inside the
  `World` state; inserts append, updates patch in place. Row creation order
  models `created_at` ordering.
-/

namespace Acsai

/-- Opaque key-value configuration map (JSON object), as an association list. -/
abbrev Config := List (String × String)

/-- Opaque value returned by one action invocation. -/
abbrev Output := String

/-- Whether the character list `p` is an initial segment of `c`. -/
def charsStartWith : List Char → List Char → Bool
  | [], _ => true
  | _ :: _, [] => false
  | p :: ps, c :: cs => (p == c) && charsStartWith ps cs

/-- Whether the pattern `pat` occurs as a contiguous run inside the list. -/
def charsContain (pat : List Char) : List Char → Bool
  | [] => charsStartWith pat []
  | c :: cs => charsStartWith pat (c :: cs) || charsContain pat cs

/-- JavaScript `String.prototype.includes`: `pat` occurs as a substring
of `s`. -/
def strIncludes (s pat : String) : Bool :=
  charsContain pat.data s.data

/-- JavaScript `String.prototype.toLowerCase` (ASCII range, which covers
every pattern the classifier matches against). -/
def lowerString (s : String) : String :=
  String.mk (s.data.map Char.toLower)

/-- The permanent-error pattern list of `isErrorHealable`
(src/app/lib/self-healing.ts, `permanentPatterns`). -/
def permanentPatterns : List String :=
  ["unauthorized",
   "forbidden",
   "authentication failed",
   "permission denied",
   "quota exceeded",
   "rate limit",
   "rate_limit",
   "missing_scope",
   "invalid_auth",
   "token_revoked",
   "account_suspended"]

/-- The healable-error pattern list of `isErrorHealable`
(src/app/lib/self-healing.ts, `healablePatterns`). -/
def healablePatterns : List String :=
  ["not found",
   "not_found",
   "invalid",
   "missing",
   "incorrect",
   "channel",
   "parameter",
   "configuration",
   "format",
   "syntax",
   "cannot read",
   "is not",
   "undefined",
   "null",
   "type error",
   "typeerror",
   "does not exist",
   "no such",
   "bad request",
   "400",
   "404",
   "422"]

/-- The failure classifier `isErrorHealable` (src/app/lib/self-healing.ts).
The error has already been reduced to its message string. Permanent patterns
are checked first and force `false`; otherwise the healable patterns decide;
anything matching neither list yields `false`. -/
def isErrorHealable (errorMessage : String) : Bool :=
  let lowerError := lowerString errorMessage
  if permanentPatterns.any (fun pattern => strIncludes lowerError pattern) then
    false
  else
    healablePatterns.any (fun pattern => strIncludes lowerError pattern)

/-- The decoded JSON object returned by the Fix Proposer's model call, before
validation. Each field may be absent (`undefined` in JavaScript). -/
structure RawProposerResult where
  fixed_config : Option Config
  reasoning : Option String
  confidence : Option ℚ
deriving DecidableEq

/-- The validated `SelfHealingResult` (src/app/types/execution.ts). -/
structure SelfHealingResult where
  fixed_config : Config
  reasoning : String
  confidence : Option ℚ
deriving DecidableEq

/-- JavaScript comparison `x <= y` where `x` may be `undefined`: comparing
`undefined` with a number yields `NaN`-comparison, which is `false`. -/
def jsLeNum (x : Option ℚ) (y : ℚ) : Bool :=
  match x with
  | some v => decide (v ≤ y)
  | none => false

/-- The Fix Proposer adapter `attemptSelfHealing`
(src/app/lib/self-healing.ts). The model call is represented by its decoded
response (`none` when the call errored, returned no content, or produced
unparseable JSON). Validation: `fixed_config` and `reasoning` must be present
and truthy (`!result.fixed_config || !result.reasoning` throws; an empty
reasoning string is falsy), and `result.confidence <= 0.1` throws. Every
throw is caught by the surrounding catch and rethrown as
"Failed to generate self-healing fix". -/
def attemptSelfHealing (resp : Option RawProposerResult) :
    Except String SelfHealingResult :=
  match resp with
  | none => Except.error "Failed to generate self-healing fix"
  | some result =>
    match result.fixed_config, result.reasoning with
    | some cfg, some reasoning =>
      if reasoning = "" then
        Except.error "Failed to generate self-healing fix"
      else if jsLeNum result.confidence (mkRat 1 10) then
        Except.error "Failed to generate self-healing fix"
      else
        Except.ok { fixed_config := cfg, reasoning := reasoning,
                    confidence := result.confidence }
    | _, _ => Except.error "Failed to generate self-healing fix"

/-- A workflow step (src/app/types/orchestrator.ts, `WorkflowStep`): `type` is
the step kind, `tool` the optional action name, `config` the opaque
configuration map. The layout fields (`position`, `next`) play no part in
execution. -/
structure WorkflowStep where
  id : String
  type : String
  tool : Option String
  config : Config
deriving DecidableEq

/-- The executor's per-run context (src/app/types/execution.ts,
`ExecutionContext`): `step_outputs` maps step ids to their results in
insertion order. -/
structure ExecutionContext where
  execution_id : String
  workflow_id : String
  user_id : String
  input_variables : Config
  step_outputs : List (String × Output)
  current_step_index : Nat
deriving DecidableEq

/-- A row of the `execution_events` table, as written by `logEvent`. The
`retry` event's retry count is stored in its metadata in the source; it is
kept in the same `retry_count` field here. `metadata` carries the healing
error string of the Self-healing-failed `error` event. -/
structure ExecutionEvent where
  event_type : String
  step_id : Option String := none
  step_index : Option Nat := none
  message : String
  retry_count : Option Nat := none
  original_error : Option String := none
  fix_applied : Option Config := none
  ai_reasoning : Option String := none
  metadata : Option String := none
deriving DecidableEq

/-- A row of the `step_executions` table, as inserted by `createStepExecution`
and patched by `updateStepExecution`. `rowId` is the database-assigned id
(insertion index); insertion order models `created_at` order. -/
structure StepExecRow where
  rowId : Nat
  execution_id : String
  step_id : String
  step_index : Nat
  step_type : String
  tool_name : Option String
  status : String
  input_data : Config
  output_data : Option Output := none
  error_message : Option String := none
  was_healed : Bool := false
  completed_at : Bool := false
deriving DecidableEq

/-- The Execution's row of the `x_execution_logs` table, as patched by
`updateExecutionLog`. Timestamps are modelled as stamped-or-not flags. -/
structure ExecutionRecord where
  status : String := "pending"
  started_at : Bool := false
  completed_at : Bool := false
  error_message : Option String := none
  output_result : Option (List (String × Output)) := none
  current_step_index : Option Nat := none
  current_step_id : Option String := none
deriving DecidableEq

/-- The world threaded through the executor: the two outcome oracles with
their call counters, and the database state. -/
structure World where
  actionResults : Nat → Except String Output
  proposerResults : Nat → Option RawProposerResult
  actionCalls : Nat := 0
  proposerCalls : Nat := 0
  db_steps : List StepExecRow := []
  db_events : List ExecutionEvent := []
  db_exec : ExecutionRecord := {}

/-- A fresh world over the two oracles: no calls made, empty database. -/
def initialWorld (acts : Nat → Except String Output)
    (props : Nat → Option RawProposerResult) : World :=
  { actionResults := acts, proposerResults := props }

/-- Helper `logEvent`: appends one row to `execution_events` (insert-only). -/
def logEvent (w : World) (e : ExecutionEvent) : World :=
  { w with db_events := w.db_events ++ [e] }

/-- Helper `createStepExecution`: inserts a `step_executions` row with status
"running" and the step's config as `input_data`, returning the new row id. -/
def createStepExecution (w : World) (executionId : String)
    (step : WorkflowStep) (stepIndex : Nat) : Nat × World :=
  let rid := w.db_steps.length
  (rid,
   { w with db_steps := w.db_steps ++
      [{ rowId := rid, execution_id := executionId, step_id := step.id,
         step_index := stepIndex, step_type := step.type,
         tool_name := step.tool, status := "running",
         input_data := step.config }] })

/-- Helper `updateStepExecution`: patches the row with the given id; the
patch function models the column updates passed at each call site. -/
def updateStepExecution (w : World) (rid : Nat)
    (patch : StepExecRow → StepExecRow) : World :=
  { w with db_steps :=
      w.db_steps.map (fun r => if r.rowId = rid then patch r else r) }

/-- Helper `updateExecutionLog`: patches the Execution's row. -/
def updateExecutionLog (w : World) (patch : ExecutionRecord → ExecutionRecord) :
    World :=
  { w with db_exec := patch w.db_exec }

/-- The Action Invoker `simulateToolExecution`: one invocation consumes the
next oracle outcome (the source's `Math.random()` draw and per-tool mock
payloads are what the oracle stands for) and bumps the invocation counter. -/
def simulateToolExecution (w : World) : Except String Output × World :=
  (w.actionResults w.actionCalls, { w with actionCalls := w.actionCalls + 1 })

/-- One Fix Proposer model call: consumes the next proposer oracle entry. -/
def invokeProposer (w : World) : Option RawProposerResult × World :=
  (w.proposerResults w.proposerCalls,
   { w with proposerCalls := w.proposerCalls + 1 })

/-- `MAX_RETRY_ATTEMPTS` (src/app/lib/self-healing.ts): retry once with the
AI fix. -/
def MAX_RETRY_ATTEMPTS : Nat := 1

/-- The Step Runner's single attempt `executeStep`: logs `step_started`,
inserts the StepExecution row, invokes the action, and on success updates the
row to "completed" and logs `step_completed`; on failure logs `step_failed`
and updates the row to "failed", propagating the error. -/
def executeStep (step : WorkflowStep) (ctx : ExecutionContext) (w : World) :
    Except String Output × World :=
  let w := logEvent w
    { event_type := "step_started", step_id := some step.id,
      step_index := some ctx.current_step_index,
      message := "Starting step: " ++ step.id ++ " (" ++ step.type ++ ")" }
  let rw := createStepExecution w ctx.execution_id step ctx.current_step_index
  let rid := rw.1
  match simulateToolExecution rw.2 with
  | (Except.ok result, w) =>
    let w := updateStepExecution w rid (fun r =>
      { r with status := "completed", output_data := some result,
               completed_at := true })
    let w := logEvent w
      { event_type := "step_completed", step_id := some step.id,
        step_index := some ctx.current_step_index,
        message := "Completed step: " ++ step.id,
        metadata := some result }
    (Except.ok result, w)
  | (Except.error e, w) =>
    let w := logEvent w
      { event_type := "step_failed", step_id := some step.id,
        step_index := some ctx.current_step_index,
        message := "Step failed: " ++ e }
    let w := updateStepExecution w rid (fun r =>
      { r with status := "failed", error_message := some e })
    (Except.error e, w)

/-- The post-heal bookkeeping in `executeStepWithHealing`: select the most
recent `step_executions` row for this execution and step (order by
`created_at` descending, limit 1) and mark it "healed"; when no row matches,
do nothing. -/
def markStepHealed (w : World) (executionId stepId : String) : World :=
  let rows := w.db_steps.filter
    (fun r => r.execution_id == executionId && r.step_id == stepId)
  match rows.getLast? with
  | none => w
  | some row => updateStepExecution w row.rowId (fun r =>
      { r with status := "healed", was_healed := true })

/-- The Step Runner `executeStepWithHealing`: runs the step once; on failure,
when the retry budget is unspent and the classifier says healable, logs
`retry`, calls the Fix Proposer, and on an actionable fix logs `self_healing`,
retries a derived step with only `config` replaced, and marks the row healed
on success. Proposer errors and renewed failure log an `error` event and
rethrow the original error. -/
def executeStepWithHealing (step : WorkflowStep) (ctx : ExecutionContext)
    (retryCount : Nat) (w : World) : Except String Output × World :=
  match executeStep step ctx w with
  | (Except.ok result, w) => (Except.ok result, w)
  | (Except.error e, w) =>
    if MAX_RETRY_ATTEMPTS ≤ retryCount || !(isErrorHealable e) then
      (Except.error e, w)
    else
      let w := logEvent w
        { event_type := "retry", step_id := some step.id,
          step_index := some ctx.current_step_index,
          message := "Attempting self-healing for step: " ++ step.id,
          retry_count := some (retryCount + 1) }
      let pw := invokeProposer w
      match attemptSelfHealing pw.1 with
      | Except.error healingError =>
        let w := logEvent pw.2
          { event_type := "error", step_id := some step.id,
            step_index := some ctx.current_step_index,
            message := "Self-healing failed for step: " ++ step.id,
            metadata := some healingError }
        (Except.error e, w)
      | Except.ok healingResult =>
        let w := logEvent pw.2
          { event_type := "self_healing", step_id := some step.id,
            step_index := some ctx.current_step_index,
            message := "AI applied fix to step: " ++ step.id,
            original_error := some e,
            fix_applied := some healingResult.fixed_config,
            ai_reasoning := some healingResult.reasoning,
            retry_count := some (retryCount + 1) }
        let healedStep : WorkflowStep := { step with
          config := healingResult.fixed_config }
        match executeStep healedStep ctx w with
        | (Except.ok result, w) =>
          (Except.ok result, markStepHealed w ctx.execution_id step.id)
        | (Except.error e2, w) =>
          let w := logEvent w
            { event_type := "error", step_id := some step.id,
              step_index := some ctx.current_step_index,
              message := "Self-healing failed for step: " ++ step.id,
              metadata := some e2 }
          (Except.error e, w)

/-- JavaScript record assignment `outs[k] = v`: replaces the value in place
when the key exists, appends otherwise. -/
def setOutput (outs : List (String × Output)) (k : String) (v : Output) :
    List (String × Output) :=
  if outs.any (fun p => p.1 == k) then
    outs.map (fun p => if p.1 == k then (k, v) else p)
  else
    outs ++ [(k, v)]

/-- The Orchestrator's loop body over the remaining steps (the `for` loop of
`executeWorkflow`): updates the current-step columns, runs the step with
healing, threads its output into `step_outputs`, and stops on the first
failure, propagating that step's error. -/
def runSteps : List WorkflowStep → Nat → ExecutionContext → World →
    Except String ExecutionContext × World
  | [], _, ctx, w => (Except.ok ctx, w)
  | step :: rest, i, ctx, w =>
    let ctx := { ctx with current_step_index := i }
    let w := updateExecutionLog w (fun r =>
      { r with current_step_index := some i, current_step_id := some step.id })
    match executeStepWithHealing step ctx 0 w with
    | (Except.error e, w) => (Except.error e, w)
    | (Except.ok result, w) =>
      let ctx := { ctx with
        step_outputs := setOutput ctx.step_outputs step.id result }
      runSteps rest (i + 1) ctx w

/-- The Orchestrator `executeWorkflow`: marks the Execution running, runs the
steps in order, and on success marks it completed with
`output_result = step_outputs` (plus an `info` event); any error escaping the
loop marks it failed with `completed_at` stamped and the error message, and
logs an `error` event. The function itself never propagates the error. -/
def executeWorkflow (executionId workflowId userId : String)
    (steps : List WorkflowStep) (inputVariables : Config) (w : World) : World :=
  let ctx : ExecutionContext :=
    { execution_id := executionId, workflow_id := workflowId,
      user_id := userId, input_variables := inputVariables,
      step_outputs := [], current_step_index := 0 }
  let w := updateExecutionLog w (fun r =>
    { r with status := "running", started_at := true })
  match runSteps steps 0 ctx w with
  | (Except.ok ctx, w) =>
    let w := updateExecutionLog w (fun r =>
      { r with status := "completed", output_result := some ctx.step_outputs,
               completed_at := true })
    logEvent w
      { event_type := "info",
        message := "Workflow x_execution completed successfully" }
  | (Except.error e, w) =>
    let w := updateExecutionLog w (fun r =>
      { r with status := "failed", error_message := some e,
               completed_at := true })
    logEvent w
      { event_type := "error",
        message := "Workflow x_execution failed: " ++ e }

/-- The permanent-pattern list exactly as the claim under scrutiny enumerates
it (the source's `permanentPatterns` additionally holds "rate_limit"). -/
def claimPermanentPatterns : List String :=
  ["unauthorized",
   "forbidden",
   "authentication failed",
   "permission denied",
   "quota exceeded",
   "rate limit",
   "missing_scope",
   "invalid_auth",
   "token_revoked",
   "account_suspended"]

/-- Concrete fixture: a slack-invite step. -/
def stepA : WorkflowStep :=
  { id := "s1", type := "action", tool := some "slack_invite",
    config := [("channel", "#general-test")] }

/-- Concrete fixture: a second step. -/
def stepB : WorkflowStep :=
  { id := "s2", type := "action", tool := some "email_send",
    config := [("to", "a@b.com")] }

/-- Concrete fixture: a third step. -/
def stepC : WorkflowStep :=
  { id := "s3", type := "action", tool := some "http_request",
    config := [("url", "https://x.test")] }

/-- Concrete fixture: an execution context at step index 0. -/
def ctxA : ExecutionContext :=
  { execution_id := "exec1", workflow_id := "wf1", user_id := "u1",
    input_variables := [], step_outputs := [], current_step_index := 0 }

/-- Concrete fixture: a confident, well-formed proposer response. -/
def goodRaw : RawProposerResult :=
  { fixed_config := some [("channel", "general")],
    reasoning := some "removed the hash sign",
    confidence := some (mkRat 85 100) }

/-- Concrete fixture: a well-formed proposer response with confidence 0.05. -/
def lowRaw : RawProposerResult :=
  { fixed_config := some [("channel", "general")],
    reasoning := some "uncertain guess",
    confidence := some (mkRat 5 100) }

/-- Concrete fixture: a proposer response whose confidence field is absent. -/
def noConfRaw : RawProposerResult :=
  { fixed_config := some [("channel", "general")],
    reasoning := some "fix without a confidence score",
    confidence := none }

/-- Action oracle: first invocation fails healably, later ones succeed. -/
def actsFailOk : Nat → Except String Output :=
  fun n => if n = 0 then Except.error "invalid" else Except.ok "out2"

/-- Action oracle: every invocation fails with a healable error. -/
def actsFailFail : Nat → Except String Output :=
  fun _ => Except.error "invalid"

/-- Action oracle: every invocation succeeds. -/
def actsOk : Nat → Except String Output :=
  fun _ => Except.ok "out1"

/-- Action oracle: first invocation succeeds, later ones fail permanently. -/
def actsOkThenPerm : Nat → Except String Output :=
  fun n => if n = 0 then Except.ok "o1" else Except.error "unauthorized"

/-- Proposer oracle answering every call with the confident fix. -/
def propsGood : Nat → Option RawProposerResult := fun _ => some goodRaw

/-- Proposer oracle answering every call with the low-confidence fix. -/
def propsLow : Nat → Option RawProposerResult := fun _ => some lowRaw

/-- Proposer oracle whose every call fails (no decodable response). -/
def propsNone : Nat → Option RawProposerResult := fun _ => none

/-- Proposer oracle answering with the confidence-free response. -/
def propsNoConf : Nat → Option RawProposerResult := fun _ => some noConfRaw

/-- C1: any error text containing (case-insensitively) a permanent-pattern
substring from the claim's list together with a healable-pattern substring
classifies as permanent (`isErrorHealable` returns `false`), and any error
text matching no pattern from either list also classifies as permanent. -/
theorem classifier_permanent_precedence_and_default_deny (s : String) :
    (claimPermanentPatterns.any
        (fun p => strIncludes (lowerString s) p) = true →
      healablePatterns.any (fun p => strIncludes (lowerString s) p) = true →
      isErrorHealable s = false) ∧
    (claimPermanentPatterns.all
        (fun p => !(strIncludes (lowerString s) p)) = true →
      healablePatterns.all (fun p => !(strIncludes (lowerString s) p)) = true →
      isErrorHealable s = false) := by
  constructor
  · intro hperm _hheal
    have hsub : ∀ p ∈ claimPermanentPatterns, p ∈ permanentPatterns := by
      decide
    have hall : permanentPatterns.any
        (fun p => strIncludes (lowerString s) p) = true := by
      rcases List.any_eq_true.mp hperm with ⟨p, hmem, hp⟩
      exact List.any_eq_true.mpr ⟨p, hsub p hmem, hp⟩
    simp [isErrorHealable, hall]
  · intro _hperm hheal
    have hany : healablePatterns.any
        (fun p => strIncludes (lowerString s) p) = false := by
      rw [List.any_eq_false]
      intro p hp
      have := List.all_eq_true.mp hheal p hp
      simp at this
      simp [this]
    cases hcase : permanentPatterns.any
        (fun p => strIncludes (lowerString s) p) with
    | true => simp [isErrorHealable, hcase]
    | false => simp [isErrorHealable, hcase, hany]

/-- C1 witness: the precedence part at "unauthorized: invalid channel" (which
contains the permanent pattern "unauthorized" and the healable pattern
"invalid"), and the default-deny part at "some unknown glitch" (which matches
no pattern from either list). -/
theorem classifier_precedence_witness_instance :
    isErrorHealable "unauthorized: invalid channel" = false ∧
    isErrorHealable "some unknown glitch" = false :=
  ⟨(classifier_permanent_precedence_and_default_deny
      "unauthorized: invalid channel").1 (by decide) (by decide),
   (classifier_permanent_precedence_and_default_deny
      "some unknown glitch").2 (by decide) (by decide)⟩

/-- C9 counterexample: the error text "timeout" contains the substring
"timeout" and no permanent-pattern substring, yet the classifier returns
`false` (permanent), contradicting the claim that "timeout" is among the
healable patterns. -/
theorem timeout_claim_counterexample :
    strIncludes (lowerString "timeout") "timeout" = true ∧
    permanentPatterns.all
      (fun p => !(strIncludes (lowerString "timeout") p)) = true ∧
    isErrorHealable "timeout" = false := by decide

/-- C9 amended: "timeout" belongs to neither pattern list of the classifier,
so an error whose text contains "timeout" and nothing from the healable list
classifies as permanent (`isErrorHealable` returns `false`). -/
theorem timeout_not_among_healable_patterns :
    "timeout" ∉ healablePatterns ∧
    "timeout" ∉ permanentPatterns ∧
    isErrorHealable "timeout" = false ∧
    isErrorHealable "Request failed: timeout" = false := by decide

/-- C10: a decoded proposer response carrying `fixed_config` and a nonempty
`reasoning` but no `confidence` field is not rejected: the JavaScript
comparison `undefined <= 0.1` is false, so `attemptSelfHealing` returns the
result as actionable, and with a healable original failure the healed retry
is attempted (a second Action Invoker call occurs); confidence is never
validated to lie in the interval from 0 to 1. -/
theorem missing_confidence_is_actionable (cfg : Config) (r : String)
    (hne : r ≠ "") :
    attemptSelfHealing (some { fixed_config := some cfg, reasoning := some r,
                               confidence := none }) =
      Except.ok { fixed_config := cfg, reasoning := r, confidence := none } ∧
    (∀ (acts : Nat → Except String Output)
       (props : Nat → Option RawProposerResult)
       (step : WorkflowStep) (ctx : ExecutionContext) (e : String),
      acts 0 = Except.error e →
      isErrorHealable e = true →
      props 0 = some { fixed_config := some cfg, reasoning := some r,
                       confidence := none } →
      (executeStepWithHealing step ctx 0
          (initialWorld acts props)).2.actionCalls = 2) := by
  constructor
  · simp [attemptSelfHealing, jsLeNum, hne]
  · intro acts props step ctx e h0 hheal hp0
    cases h1 : acts 1 with
    | ok out =>
      simp [executeStepWithHealing, executeStep, initialWorld,
            simulateToolExecution, invokeProposer, logEvent,
            createStepExecution, updateStepExecution, markStepHealed,
            attemptSelfHealing, jsLeNum, MAX_RETRY_ATTEMPTS,
            h0, h1, hheal, hp0, hne]
    | error e2 =>
      simp [executeStepWithHealing, executeStep, initialWorld,
            simulateToolExecution, invokeProposer, logEvent,
            createStepExecution, updateStepExecution, markStepHealed,
            attemptSelfHealing, jsLeNum, MAX_RETRY_ATTEMPTS,
            h0, h1, hheal, hp0, hne]

/-- C10 witness: the confidence-free fixture response is accepted, and with a
first invocation failing healably the healed retry runs (two invocations). -/
theorem missing_confidence_witness_instance :
    attemptSelfHealing (some noConfRaw) =
      Except.ok { fixed_config := [("channel", "general")],
                  reasoning := "fix without a confidence score",
                  confidence := none } ∧
    (executeStepWithHealing stepA ctxA 0
        (initialWorld actsFailOk propsNoConf)).2.actionCalls = 2 :=
  ⟨(missing_confidence_is_actionable [("channel", "general")]
      "fix without a confidence score" (by decide)).1,
   (missing_confidence_is_actionable [("channel", "general")]
      "fix without a confidence score" (by decide)).2
     actsFailOk propsNoConf stepA ctxA "invalid" rfl (by decide) rfl⟩

/-- C2: whenever a healing attempt does not succeed, the step ends failed
with the original Action Invoker error surfaced, never the healing error.
Part 1: a well-formed proposer response with confidence at most 0.1 makes
`attemptSelfHealing` raise. Part 2: when the proposer raises (low confidence,
call error, or malformed output), the Step Runner returns the original error,
makes no second Action Invoker call, and leaves the step's row failed.
Part 3: when the retried invocation fails again, the original error (not the
retry's) is returned. Parts 4 and 5: in both shapes, a one-step workflow ends
with Execution status failed and the original error as `error_message`. -/
theorem healing_failure_surfaces_original_error :
    (∀ (cfg : Config) (r : String) (c : ℚ), r ≠ "" → c ≤ mkRat 1 10 →
      attemptSelfHealing (some { fixed_config := some cfg,
                                 reasoning := some r,
                                 confidence := some c }) =
        Except.error "Failed to generate self-healing fix") ∧
    (∀ (acts : Nat → Except String Output)
       (props : Nat → Option RawProposerResult)
       (step : WorkflowStep) (ctx : ExecutionContext) (e : String),
      acts 0 = Except.error e →
      isErrorHealable e = true →
      (∃ he, attemptSelfHealing (props 0) = Except.error he) →
      (executeStepWithHealing step ctx 0 (initialWorld acts props)).1 =
        Except.error e ∧
      (executeStepWithHealing step ctx 0
          (initialWorld acts props)).2.actionCalls = 1 ∧
      ((executeStepWithHealing step ctx 0
          (initialWorld acts props)).2.db_steps.map StepExecRow.status) =
        ["failed"]) ∧
    (∀ (acts : Nat → Except String Output)
       (props : Nat → Option RawProposerResult)
       (step : WorkflowStep) (ctx : ExecutionContext)
       (e : String) (hr : SelfHealingResult) (e2 : String),
      acts 0 = Except.error e →
      isErrorHealable e = true →
      attemptSelfHealing (props 0) = Except.ok hr →
      acts 1 = Except.error e2 →
      (executeStepWithHealing step ctx 0 (initialWorld acts props)).1 =
        Except.error e) ∧
    (∀ (acts : Nat → Except String Output)
       (props : Nat → Option RawProposerResult)
       (eid wid uid : String) (step : WorkflowStep) (iv : Config)
       (e : String),
      acts 0 = Except.error e →
      isErrorHealable e = true →
      (∃ he, attemptSelfHealing (props 0) = Except.error he) →
      (executeWorkflow eid wid uid [step] iv
          (initialWorld acts props)).db_exec.status = "failed" ∧
      (executeWorkflow eid wid uid [step] iv
          (initialWorld acts props)).db_exec.error_message = some e) ∧
    (∀ (acts : Nat → Except String Output)
       (props : Nat → Option RawProposerResult)
       (eid wid uid : String) (step : WorkflowStep) (iv : Config)
       (e : String) (hr : SelfHealingResult) (e2 : String),
      acts 0 = Except.error e →
      isErrorHealable e = true →
      attemptSelfHealing (props 0) = Except.ok hr →
      acts 1 = Except.error e2 →
      (executeWorkflow eid wid uid [step] iv
          (initialWorld acts props)).db_exec.status = "failed" ∧
      (executeWorkflow eid wid uid [step] iv
          (initialWorld acts props)).db_exec.error_message = some e) := by
  refine ⟨?_, ?_, ?_, ?_, ?_⟩
  · intro cfg r c hne hc
    simp [attemptSelfHealing, jsLeNum, hne, hc]
  · intro acts props step ctx e h0 hheal hex
    obtain ⟨he, hp⟩ := hex
    simp [executeStepWithHealing, executeStep, initialWorld,
          simulateToolExecution, invokeProposer, logEvent,
          createStepExecution, updateStepExecution, markStepHealed,
          MAX_RETRY_ATTEMPTS, h0, hheal, hp]
  · intro acts props step ctx e hr e2 h0 hheal hp h1
    simp [executeStepWithHealing, executeStep, initialWorld,
          simulateToolExecution, invokeProposer, logEvent,
          createStepExecution, updateStepExecution, markStepHealed,
          MAX_RETRY_ATTEMPTS, h0, hheal, hp, h1]
  · intro acts props eid wid uid step iv e h0 hheal hex
    obtain ⟨he, hp⟩ := hex
    simp [executeWorkflow, runSteps, executeStepWithHealing, executeStep,
          initialWorld, simulateToolExecution, invokeProposer, logEvent,
          createStepExecution, updateStepExecution, updateExecutionLog,
          markStepHealed, setOutput, MAX_RETRY_ATTEMPTS, h0, hheal, hp]
  · intro acts props eid wid uid step iv e hr e2 h0 hheal hp h1
    simp [executeWorkflow, runSteps, executeStepWithHealing, executeStep,
          initialWorld, simulateToolExecution, invokeProposer, logEvent,
          createStepExecution, updateStepExecution, updateExecutionLog,
          markStepHealed, setOutput, MAX_RETRY_ATTEMPTS, h0, hheal, hp, h1]

/-- C2 witness: the low-confidence fixture is rejected by the adapter; with
the low-confidence proposer the step returns the original "invalid" error
after one invocation with a failed row; with the confident proposer and a
failing retry the original error is still the one returned; and the one-step
workflow records the original error as the Execution's message in both
shapes. -/
theorem healing_failure_witness_instance :
    attemptSelfHealing (some lowRaw) =
      Except.error "Failed to generate self-healing fix" ∧
    (executeStepWithHealing stepA ctxA 0
        (initialWorld actsFailFail propsLow)).1 = Except.error "invalid" ∧
    (executeStepWithHealing stepA ctxA 0
        (initialWorld actsFailFail propsLow)).2.actionCalls = 1 ∧
    ((executeStepWithHealing stepA ctxA 0
        (initialWorld actsFailFail propsLow)).2.db_steps.map
          StepExecRow.status) = ["failed"] ∧
    (executeStepWithHealing stepA ctxA 0
        (initialWorld actsFailFail propsGood)).1 = Except.error "invalid" ∧
    (executeWorkflow "exec1" "wf1" "u1" [stepA] []
        (initialWorld actsFailFail propsLow)).db_exec.error_message =
      some "invalid" ∧
    (executeWorkflow "exec1" "wf1" "u1" [stepA] []
        (initialWorld actsFailFail propsGood)).db_exec.error_message =
      some "invalid" := by
  refine ⟨healing_failure_surfaces_original_error.1 [("channel", "general")]
            "uncertain guess" (mkRat 5 100) (by decide) (by decide), ?_⟩
  have h2 := healing_failure_surfaces_original_error.2.1 actsFailFail propsLow
    stepA ctxA "invalid" rfl (by decide) ⟨_, rfl⟩
  have h3 := healing_failure_surfaces_original_error.2.2.1 actsFailFail
    propsGood stepA ctxA "invalid"
    { fixed_config := [("channel", "general")],
      reasoning := "removed the hash sign",
      confidence := some (mkRat 85 100) } "invalid" rfl (by decide) rfl rfl
  have h4 := healing_failure_surfaces_original_error.2.2.2.1 actsFailFail
    propsLow "exec1" "wf1" "u1" stepA [] "invalid" rfl (by decide) ⟨_, rfl⟩
  have h5 := healing_failure_surfaces_original_error.2.2.2.2 actsFailFail
    propsGood "exec1" "wf1" "u1" stepA [] "invalid"
    { fixed_config := [("channel", "general")],
      reasoning := "removed the hash sign",
      confidence := some (mkRat 85 100) } "invalid" rfl (by decide) rfl rfl
  exact ⟨h2.1, h2.2.1, h2.2.2, h3, h4.2, h5.2⟩

/-- C3 counterexample: a concrete successfully-healed run leaves two
StepExecution rows for the step, so the claimed "exactly one row per healed
step" fails (the retried invocation went through `executeStep`, which always
inserts a fresh row). -/
theorem healed_step_single_row_counterexample :
    (executeStepWithHealing stepA ctxA 0
        (initialWorld actsFailOk propsGood)).1 = Except.ok "out2" ∧
    ¬ (((executeStepWithHealing stepA ctxA 0
          (initialWorld actsFailOk propsGood)).2.db_steps.filter
            (fun r => r.step_id == "s1")).length = 1) :=
  ⟨rfl, by decide⟩

/-- C3 amended: each `executeStep` call inserts its own StepExecution row, so
a successfully healed step ends with exactly two rows: the original attempt's
row with final status failed, and the retry's row — the most recent row for
the step — updated to healed with `was_healed` set; the attempt count
(retry count 1) is carried on the retry and self_healing events, not on any
StepExecution row. -/
theorem healed_step_ends_with_two_rows
    (acts : Nat → Except String Output)
    (props : Nat → Option RawProposerResult)
    (step : WorkflowStep) (ctx : ExecutionContext) (e : String)
    (hr : SelfHealingResult) (out : Output)
    (h0 : acts 0 = Except.error e)
    (hheal : isErrorHealable e = true)
    (hp : attemptSelfHealing (props 0) = Except.ok hr)
    (h1 : acts 1 = Except.ok out) :
    (executeStepWithHealing step ctx 0 (initialWorld acts props)).1 =
      Except.ok out ∧
    ((executeStepWithHealing step ctx 0
        (initialWorld acts props)).2.db_steps.map StepExecRow.step_id) =
      [step.id, step.id] ∧
    ((executeStepWithHealing step ctx 0
        (initialWorld acts props)).2.db_steps.map StepExecRow.status) =
      ["failed", "healed"] ∧
    ((executeStepWithHealing step ctx 0
        (initialWorld acts props)).2.db_steps.map StepExecRow.was_healed) =
      [false, true] ∧
    ((executeStepWithHealing step ctx 0
        (initialWorld acts props)).2.db_events.map
          (fun ev => (ev.event_type, ev.retry_count))) =
      [("step_started", none), ("step_failed", none), ("retry", some 1),
       ("self_healing", some 1), ("step_started", none),
       ("step_completed", none)] := by
  refine ⟨?_, ?_, ?_, ?_, ?_⟩ <;>
    simp [executeStepWithHealing, executeStep, initialWorld,
          simulateToolExecution, invokeProposer, logEvent,
          createStepExecution, updateStepExecution, markStepHealed,
          MAX_RETRY_ATTEMPTS, h0, h1, hheal, hp]

/-- C3 witness: the amended row shape at the concrete healed fixture run. -/
theorem healed_step_two_rows_witness_instance :
    (executeStepWithHealing stepA ctxA 0
        (initialWorld actsFailOk propsGood)).1 = Except.ok "out2" ∧
    ((executeStepWithHealing stepA ctxA 0
        (initialWorld actsFailOk propsGood)).2.db_steps.map
          StepExecRow.step_id) = ["s1", "s1"] ∧
    ((executeStepWithHealing stepA ctxA 0
        (initialWorld actsFailOk propsGood)).2.db_steps.map
          StepExecRow.status) = ["failed", "healed"] ∧
    ((executeStepWithHealing stepA ctxA 0
        (initialWorld actsFailOk propsGood)).2.db_steps.map
          StepExecRow.was_healed) = [false, true] ∧
    ((executeStepWithHealing stepA ctxA 0
        (initialWorld actsFailOk propsGood)).2.db_events.map
          (fun ev => (ev.event_type, ev.retry_count))) =
      [("step_started", none), ("step_failed", none), ("retry", some 1),
       ("self_healing", some 1), ("step_started", none),
       ("step_completed", none)] :=
  healed_step_ends_with_two_rows actsFailOk propsGood stepA ctxA "invalid"
    { fixed_config := [("channel", "general")],
      reasoning := "removed the hash sign",
      confidence := some (mkRat 85 100) } "out2" rfl (by decide) rfl rfl

/-- C4 counterexample: a concrete run in which the Fix Proposer supplies an
actionable fix but the retried invocation fails again still contains a
self_healing event, although no successful healed retry occurred — refuting
"self_healing is emitted on (and only on) a successful healed retry". -/
theorem self_healing_event_without_healed_retry :
    (executeStepWithHealing stepA ctxA 0
        (initialWorld actsFailFail propsGood)).1 = Except.error "invalid" ∧
    "self_healing" ∈ ((executeStepWithHealing stepA ctxA 0
        (initialWorld actsFailFail propsGood)).2.db_events.map
          ExecutionEvent.event_type) :=
  ⟨rfl, by decide⟩

/-- C4 amended: a cleanly-succeeding step emits exactly step_started and
step_completed; a healed step emits exactly step_started, step_failed, retry,
self_healing, step_started, step_completed (the claimed four in order, plus
the retry's own pair); and the self_healing event is emitted when the
proposer returns an actionable fix, before the retried invocation, so it also
appears — followed by step_started, step_failed, error — when the healed
retry fails. -/
theorem step_runner_event_sequences :
    (∀ (acts : Nat → Except String Output)
       (props : Nat → Option RawProposerResult)
       (step : WorkflowStep) (ctx : ExecutionContext) (out : Output),
      acts 0 = Except.ok out →
      ((executeStepWithHealing step ctx 0
          (initialWorld acts props)).2.db_events.map
            ExecutionEvent.event_type) =
        ["step_started", "step_completed"]) ∧
    (∀ (acts : Nat → Except String Output)
       (props : Nat → Option RawProposerResult)
       (step : WorkflowStep) (ctx : ExecutionContext) (e : String)
       (hr : SelfHealingResult) (out : Output),
      acts 0 = Except.error e →
      isErrorHealable e = true →
      attemptSelfHealing (props 0) = Except.ok hr →
      acts 1 = Except.ok out →
      ((executeStepWithHealing step ctx 0
          (initialWorld acts props)).2.db_events.map
            ExecutionEvent.event_type) =
        ["step_started", "step_failed", "retry", "self_healing",
         "step_started", "step_completed"]) ∧
    (∀ (acts : Nat → Except String Output)
       (props : Nat → Option RawProposerResult)
       (step : WorkflowStep) (ctx : ExecutionContext) (e : String)
       (hr : SelfHealingResult) (e2 : String),
      acts 0 = Except.error e →
      isErrorHealable e = true →
      attemptSelfHealing (props 0) = Except.ok hr →
      acts 1 = Except.error e2 →
      ((executeStepWithHealing step ctx 0
          (initialWorld acts props)).2.db_events.map
            ExecutionEvent.event_type) =
        ["step_started", "step_failed", "retry", "self_healing",
         "step_started", "step_failed", "error"]) := by
  refine ⟨?_, ?_, ?_⟩
  · intro acts props step ctx out h0
    simp [executeStepWithHealing, executeStep, initialWorld,
          simulateToolExecution, invokeProposer, logEvent,
          createStepExecution, updateStepExecution, markStepHealed,
          MAX_RETRY_ATTEMPTS, h0]
  · intro acts props step ctx e hr out h0 hheal hp h1
    simp [executeStepWithHealing, executeStep, initialWorld,
          simulateToolExecution, invokeProposer, logEvent,
          createStepExecution, updateStepExecution, markStepHealed,
          MAX_RETRY_ATTEMPTS, h0, h1, hheal, hp]
  · intro acts props step ctx e hr e2 h0 hheal hp h1
    simp [executeStepWithHealing, executeStep, initialWorld,
          simulateToolExecution, invokeProposer, logEvent,
          createStepExecution, updateStepExecution, markStepHealed,
          MAX_RETRY_ATTEMPTS, h0, h1, hheal, hp]

/-- C4 witness: the three amended event sequences at the concrete fixtures
(clean success, successful heal, failed healed retry). -/
theorem event_sequences_witness_instance :
    ((executeStepWithHealing stepA ctxA 0
        (initialWorld actsOk propsGood)).2.db_events.map
          ExecutionEvent.event_type) = ["step_started", "step_completed"] ∧
    ((executeStepWithHealing stepA ctxA 0
        (initialWorld actsFailOk propsGood)).2.db_events.map
          ExecutionEvent.event_type) =
      ["step_started", "step_failed", "retry", "self_healing",
       "step_started", "step_completed"] ∧
    ((executeStepWithHealing stepA ctxA 0
        (initialWorld actsFailFail propsGood)).2.db_events.map
          ExecutionEvent.event_type) =
      ["step_started", "step_failed", "retry", "self_healing",
       "step_started", "step_failed", "error"] :=
  ⟨step_runner_event_sequences.1 actsOk propsGood stepA ctxA "out1" rfl,
   step_runner_event_sequences.2.1 actsFailOk propsGood stepA ctxA "invalid"
     { fixed_config := [("channel", "general")],
       reasoning := "removed the hash sign",
       confidence := some (mkRat 85 100) } "out2" rfl (by decide) rfl rfl,
   step_runner_event_sequences.2.2 actsFailFail propsGood stepA ctxA
     "invalid"
     { fixed_config := [("channel", "general")],
       reasoning := "removed the hash sign",
       confidence := some (mkRat 85 100) } "invalid" rfl (by decide) rfl rfl⟩

/-- C5: at most one healing attempt per step. Part 1: for every step, context
and pair of oracles, the Step Runner makes at most two Action Invoker calls.
Part 2: a step whose original invocation fails healably and whose healed
retry fails again ends failed with the original error, exactly two
invocations having been made (never a third), both rows failed, and the
retry and self_healing events carrying retry count 1. -/
theorem heal_budget_is_one
    (acts : Nat → Except String Output)
    (props : Nat → Option RawProposerResult)
    (step : WorkflowStep) (ctx : ExecutionContext) :
    (executeStepWithHealing step ctx 0
        (initialWorld acts props)).2.actionCalls ≤ 2 ∧
    (∀ (e e2 : String) (hr : SelfHealingResult),
      acts 0 = Except.error e →
      isErrorHealable e = true →
      attemptSelfHealing (props 0) = Except.ok hr →
      acts 1 = Except.error e2 →
      (executeStepWithHealing step ctx 0 (initialWorld acts props)).1 =
        Except.error e ∧
      (executeStepWithHealing step ctx 0
          (initialWorld acts props)).2.actionCalls = 2 ∧
      ((executeStepWithHealing step ctx 0
          (initialWorld acts props)).2.db_steps.map StepExecRow.status) =
        ["failed", "failed"] ∧
      ((executeStepWithHealing step ctx 0
          (initialWorld acts props)).2.db_events.map
            (fun ev => (ev.event_type, ev.retry_count))) =
        [("step_started", none), ("step_failed", none), ("retry", some 1),
         ("self_healing", some 1), ("step_started", none),
         ("step_failed", none), ("error", none)]) := by
  constructor
  · cases h0 : acts 0 with
    | ok v =>
      simp [executeStepWithHealing, executeStep, initialWorld,
            simulateToolExecution, invokeProposer, logEvent,
            createStepExecution, updateStepExecution, markStepHealed,
            MAX_RETRY_ATTEMPTS, h0]
    | error e =>
      cases hheal : isErrorHealable e with
      | false =>
        simp [executeStepWithHealing, executeStep, initialWorld,
              simulateToolExecution, invokeProposer, logEvent,
              createStepExecution, updateStepExecution, markStepHealed,
              MAX_RETRY_ATTEMPTS, h0, hheal]
      | true =>
        cases hp : attemptSelfHealing (props 0) with
        | error he =>
          simp [executeStepWithHealing, executeStep, initialWorld,
                simulateToolExecution, invokeProposer, logEvent,
                createStepExecution, updateStepExecution, markStepHealed,
                MAX_RETRY_ATTEMPTS, h0, hheal, hp]
        | ok hr =>
          cases h1 : acts 1 with
          | ok out =>
            simp [executeStepWithHealing, executeStep, initialWorld,
                  simulateToolExecution, invokeProposer, logEvent,
                  createStepExecution, updateStepExecution, markStepHealed,
                  MAX_RETRY_ATTEMPTS, h0, hheal, hp, h1]
          | error e2 =>
            simp [executeStepWithHealing, executeStep, initialWorld,
                  simulateToolExecution, invokeProposer, logEvent,
                  createStepExecution, updateStepExecution, markStepHealed,
                  MAX_RETRY_ATTEMPTS, h0, hheal, hp, h1]
  · intro e e2 hr h0 hheal hp h1
    refine ⟨?_, ?_, ?_, ?_⟩ <;>
      simp [executeStepWithHealing, executeStep, initialWorld,
            simulateToolExecution, invokeProposer, logEvent,
            createStepExecution, updateStepExecution, markStepHealed,
            MAX_RETRY_ATTEMPTS, h0, h1, hheal, hp]

/-- C5 witness: the double-failure fixture run makes exactly two invocations,
returns the original error and logs retry count 1. -/
theorem heal_budget_witness_instance :
    (executeStepWithHealing stepA ctxA 0
        (initialWorld actsFailFail propsGood)).2.actionCalls ≤ 2 ∧
    (executeStepWithHealing stepA ctxA 0
        (initialWorld actsFailFail propsGood)).1 = Except.error "invalid" ∧
    (executeStepWithHealing stepA ctxA 0
        (initialWorld actsFailFail propsGood)).2.actionCalls = 2 ∧
    ((executeStepWithHealing stepA ctxA 0
        (initialWorld actsFailFail propsGood)).2.db_steps.map
          StepExecRow.status) = ["failed", "failed"] ∧
    ((executeStepWithHealing stepA ctxA 0
        (initialWorld actsFailFail propsGood)).2.db_events.map
          (fun ev => (ev.event_type, ev.retry_count))) =
      [("step_started", none), ("step_failed", none), ("retry", some 1),
       ("self_healing", some 1), ("step_started", none),
       ("step_failed", none), ("error", none)] := by
  have h := heal_budget_is_one actsFailFail propsGood stepA ctxA
  have h2 := h.2 "invalid" "invalid"
    { fixed_config := [("channel", "general")],
      reasoning := "removed the hash sign",
      confidence := some (mkRat 85 100) } rfl (by decide) rfl rfl
  exact ⟨h.1, h2.1, h2.2.1, h2.2.2.1, h2.2.2.2⟩

/-- C6: steps run strictly in declaration order and the Orchestrator stops on
the first failed step. Part 1: in a three-step workflow whose second step
fails permanently, only two Action Invoker calls are ever made (the third
step is never invoked and gets no StepExecution row), and the Execution ends
failed with `completed_at` stamped and the second step's error as
`error_message`. Part 2: when every invocation succeeds, the Execution ends
completed with `completed_at` stamped and
`output_result = step_outputs` accumulated in step order. -/
theorem sequential_stop_and_completion
    (acts : Nat → Except String Output)
    (props : Nat → Option RawProposerResult)
    (eid wid uid : String) (s1 s2 s3 : WorkflowStep) (iv : Config) :
    (∀ (o1 : Output) (e : String),
      acts 0 = Except.ok o1 →
      acts 1 = Except.error e →
      isErrorHealable e = false →
      (executeWorkflow eid wid uid [s1, s2, s3] iv
          (initialWorld acts props)).db_exec.status = "failed" ∧
      (executeWorkflow eid wid uid [s1, s2, s3] iv
          (initialWorld acts props)).db_exec.error_message = some e ∧
      (executeWorkflow eid wid uid [s1, s2, s3] iv
          (initialWorld acts props)).db_exec.completed_at = true ∧
      (executeWorkflow eid wid uid [s1, s2, s3] iv
          (initialWorld acts props)).actionCalls = 2 ∧
      ((executeWorkflow eid wid uid [s1, s2, s3] iv
          (initialWorld acts props)).db_steps.map StepExecRow.step_id) =
        [s1.id, s2.id]) ∧
    (∀ (o1 o2 o3 : Output),
      acts 0 = Except.ok o1 →
      acts 1 = Except.ok o2 →
      acts 2 = Except.ok o3 →
      s1.id ≠ s2.id → s1.id ≠ s3.id → s2.id ≠ s3.id →
      (executeWorkflow eid wid uid [s1, s2, s3] iv
          (initialWorld acts props)).db_exec.status = "completed" ∧
      (executeWorkflow eid wid uid [s1, s2, s3] iv
          (initialWorld acts props)).db_exec.completed_at = true ∧
      (executeWorkflow eid wid uid [s1, s2, s3] iv
          (initialWorld acts props)).db_exec.output_result =
        some [(s1.id, o1), (s2.id, o2), (s3.id, o3)]) := by
  constructor
  · intro o1 e h0 h1 hperm
    refine ⟨?_, ?_, ?_, ?_, ?_⟩ <;>
      simp [executeWorkflow, runSteps, executeStepWithHealing, executeStep,
            initialWorld, simulateToolExecution, invokeProposer, logEvent,
            createStepExecution, updateStepExecution, updateExecutionLog,
            markStepHealed, setOutput, MAX_RETRY_ATTEMPTS, h0, h1, hperm]
  · intro o1 o2 o3 h0 h1 h2 d12 d13 d23
    refine ⟨?_, ?_, ?_⟩ <;>
      simp [executeWorkflow, runSteps, executeStepWithHealing, executeStep,
            initialWorld, simulateToolExecution, invokeProposer, logEvent,
            createStepExecution, updateStepExecution, updateExecutionLog,
            markStepHealed, setOutput, MAX_RETRY_ATTEMPTS, h0, h1, h2,
            d12, d13, d23]

/-- C6 witness: the three-step fixtures with a permanent failure at step two
(two invocations, rows only for steps one and two, failure recorded) and
with all steps succeeding (completed, outputs in order). -/
theorem sequential_stop_witness_instance :
    (executeWorkflow "exec1" "wf1" "u1" [stepA, stepB, stepC] []
        (initialWorld actsOkThenPerm propsGood)).db_exec.status = "failed" ∧
    (executeWorkflow "exec1" "wf1" "u1" [stepA, stepB, stepC] []
        (initialWorld actsOkThenPerm propsGood)).db_exec.error_message =
      some "unauthorized" ∧
    (executeWorkflow "exec1" "wf1" "u1" [stepA, stepB, stepC] []
        (initialWorld actsOkThenPerm propsGood)).actionCalls = 2 ∧
    ((executeWorkflow "exec1" "wf1" "u1" [stepA, stepB, stepC] []
        (initialWorld actsOkThenPerm propsGood)).db_steps.map
          StepExecRow.step_id) = ["s1", "s2"] ∧
    (executeWorkflow "exec1" "wf1" "u1" [stepA, stepB, stepC] []
        (initialWorld actsOk propsGood)).db_exec.status = "completed" ∧
    (executeWorkflow "exec1" "wf1" "u1" [stepA, stepB, stepC] []
        (initialWorld actsOk propsGood)).db_exec.output_result =
      some [("s1", "out1"), ("s2", "out1"), ("s3", "out1")] := by
  have hfail := (sequential_stop_and_completion actsOkThenPerm propsGood
    "exec1" "wf1" "u1" stepA stepB stepC []).1 "o1" "unauthorized" rfl rfl
    (by decide)
  have hok := (sequential_stop_and_completion actsOk propsGood
    "exec1" "wf1" "u1" stepA stepB stepC []).2 "out1" "out1" "out1" rfl rfl
    rfl (by decide) (by decide) (by decide)
  exact ⟨hfail.1, hfail.2.1, hfail.2.2.2.1, hfail.2.2.2.2, hok.1, hok.2.2⟩

/-- C7: a successfully healed step retries a derived step identical to the
original in everything but config: both StepExecution rows carry the
original's step id, step kind and action name, while the retry's row uses the
proposer's fixed configuration as its `input_data` in place of the original
config. -/
theorem healed_retry_patches_only_config
    (acts : Nat → Except String Output)
    (props : Nat → Option RawProposerResult)
    (step : WorkflowStep) (ctx : ExecutionContext) (e : String)
    (hr : SelfHealingResult) (out : Output)
    (h0 : acts 0 = Except.error e)
    (hheal : isErrorHealable e = true)
    (hp : attemptSelfHealing (props 0) = Except.ok hr)
    (h1 : acts 1 = Except.ok out) :
    (executeStepWithHealing step ctx 0 (initialWorld acts props)).1 =
      Except.ok out ∧
    ((executeStepWithHealing step ctx 0
        (initialWorld acts props)).2.db_steps.map
          (fun r => (r.step_id, r.step_type, r.tool_name))) =
      [(step.id, step.type, step.tool), (step.id, step.type, step.tool)] ∧
    ((executeStepWithHealing step ctx 0
        (initialWorld acts props)).2.db_steps.map StepExecRow.input_data) =
      [step.config, hr.fixed_config] := by
  refine ⟨?_, ?_, ?_⟩ <;>
    simp [executeStepWithHealing, executeStep, initialWorld,
          simulateToolExecution, invokeProposer, logEvent,
          createStepExecution, updateStepExecution, markStepHealed,
          MAX_RETRY_ATTEMPTS, h0, h1, hheal, hp]

/-- C7 witness: the healed fixture run preserves id, kind and tool on the
retry's row and swaps only the configuration. -/
theorem config_only_patch_witness_instance :
    (executeStepWithHealing stepA ctxA 0
        (initialWorld actsFailOk propsGood)).1 = Except.ok "out2" ∧
    ((executeStepWithHealing stepA ctxA 0
        (initialWorld actsFailOk propsGood)).2.db_steps.map
          (fun r => (r.step_id, r.step_type, r.tool_name))) =
      [("s1", "action", some "slack_invite"),
       ("s1", "action", some "slack_invite")] ∧
    ((executeStepWithHealing stepA ctxA 0
        (initialWorld actsFailOk propsGood)).2.db_steps.map
          StepExecRow.input_data) =
      [[("channel", "#general-test")], [("channel", "general")]] :=
  healed_retry_patches_only_config actsFailOk propsGood stepA ctxA "invalid"
    { fixed_config := [("channel", "general")],
      reasoning := "removed the hash sign",
      confidence := some (mkRat 85 100) } "out2" rfl (by decide) rfl rfl

/-- C8: for every workflow and every pair of oracles, the Orchestrator leaves
the Execution in a terminal status — either completed, or failed with
`completed_at` stamped and an error ExecutionEvent as the last appended
event; it is never left in status running (`executeWorkflow` is total, so no
exception propagates out of it). -/
theorem orchestrator_never_leaves_running
    (acts : Nat → Except String Output)
    (props : Nat → Option RawProposerResult)
    (eid wid uid : String) (steps : List WorkflowStep) (iv : Config) :
    (executeWorkflow eid wid uid steps iv
        (initialWorld acts props)).db_exec.status = "completed" ∨
    ((executeWorkflow eid wid uid steps iv
        (initialWorld acts props)).db_exec.status = "failed" ∧
     (executeWorkflow eid wid uid steps iv
        (initialWorld acts props)).db_exec.completed_at = true ∧
     ∃ ev, (executeWorkflow eid wid uid steps iv
        (initialWorld acts props)).db_events.getLast? = some ev ∧
       ev.event_type = "error") := by
  rcases hrun : runSteps steps 0
      { execution_id := eid, workflow_id := wid, user_id := uid,
        input_variables := iv, step_outputs := [], current_step_index := 0 }
      (updateExecutionLog (initialWorld acts props) (fun r =>
        { r with status := "running", started_at := true })) with ⟨res, w2⟩
  cases res with
  | ok c2 =>
    left
    simp only [executeWorkflow]
    rw [hrun]
    simp [updateExecutionLog, logEvent]
  | error e =>
    right
    simp only [executeWorkflow]
    rw [hrun]
    refine ⟨by simp [updateExecutionLog, logEvent],
            by simp [updateExecutionLog, logEvent], ?_⟩
    refine ⟨{ event_type := "error",
              message := "Workflow x_execution failed: " ++ e }, ?_, rfl⟩
    simp [updateExecutionLog, logEvent]

end Acsai
